import Mathlib

/-!
Shallow embedding of the ClauQBot message bridge (src/bot.py, src/claude_handler.py,
src/onebot_client.py) and proofs about the claims of its specification.

Conventions of the embedding:
* Python strings are Lean String values; Python len and slicing count logical
  characters, as do String.length and String.drop.
* Python floats that only ever hold small dyadic values (backoff seconds, costs)
  are modelled as rationals.
* Decoded JSON values are modelled by the JValue inductive; a Python dict holding
  a fixed set of optional keys is modelled by a structure with Option fields.
* Awaited effects (socket writes, sleeps, subprocess runs) are modelled as
  explicit event lists or oracle inputs, so every definition is executable.
-/

namespace ClauQBot

/-! ### Decoded JSON values (results of json.loads) -/

/-- A decoded JSON value, as produced by json.loads in the source. Numbers are
modelled as rationals; an object is an association list of fields. -/
inductive JValue where
  | null : JValue
  | bool (b : Bool) : JValue
  | num (q : ℚ) : JValue
  | str (s : String) : JValue
  | arr (elems : List JValue) : JValue
  | obj (fields : List (String × JValue)) : JValue

/-- Python truthiness of a decoded JSON value: None, False, 0, empty string,
empty list and empty dict are falsy, everything else is truthy. -/
def truthy : JValue → Bool
  | .null => false
  | .bool b => b
  | .num q => q != 0
  | .str s => s != ""
  | .arr elems => !elems.isEmpty
  | .obj fields => !fields.isEmpty

/-- Python dict.get on a decoded JSON object: the value of the first field with
the given key, if any. -/
def pyGet (fields : List (String × JValue)) (key : String) : Option JValue :=
  fields.lookup key

mutual
/-- Python repr rendering of a decoded JSON value (int-valued numbers are
rendered without a decimal point; the source only hits this on the non-dict
JSON branch of the output classifier, which no conversation exercises). -/
def pyReprV : JValue → String
  | .null => "None"
  | .bool b => if b then "True" else "False"
  | .num q => if q.den = 1 then toString q.num else toString q
  | .str s => String.singleton (Char.ofNat 39) ++ s ++ String.singleton (Char.ofNat 39)
  | .arr elems => "[" ++ pyReprList elems ++ "]"
  | .obj fields => "\x7b" ++ pyReprFields fields ++ "\x7d"

/-- Comma-separated repr rendering of a list of JSON values. -/
def pyReprList : List JValue → String
  | [] => ""
  | [v] => pyReprV v
  | v :: rest => pyReprV v ++ ", " ++ pyReprList rest

/-- Comma-separated repr rendering of the fields of a JSON object. -/
def pyReprFields : List (String × JValue) → String
  | [] => ""
  | [(k, v)] => pyReprV (.str k) ++ ": " ++ pyReprV v
  | (k, v) :: rest => pyReprV (.str k) ++ ": " ++ pyReprV v ++ ", " ++ pyReprFields rest
end

/-- Python str rendering of a decoded JSON value: a bare string renders as
itself, every other value as its repr. -/
def pyStr : JValue → String
  | .str s => s
  | v => pyReprV v

/-! ### Python whitespace stripping -/

/-- Python str.strip default whitespace characters (ASCII range). -/
def isPySpace (c : Char) : Bool :=
  c = ' ' || c = '\t' || c = '\n' || c = '\r' || c = '\x0b' || c = '\x0c'

/-- Python str.strip with no argument on a character list: remove leading
and trailing whitespace. -/
def pyStripL (s : List Char) : List Char :=
  ((s.dropWhile isPySpace).reverse.dropWhile isPySpace).reverse

/-- Python str.strip with no argument: remove leading and trailing whitespace. -/
def pyStrip (s : String) : String :=
  String.mk (pyStripL s.toList)

/-! ### ClaudeHandler (src/claude_handler.py) -/

/-- Class attribute RETRYABLE_ERRORS of ClaudeHandler: keywords marking an
error message as retryable. -/
def RETRYABLE_ERRORS : List String :=
  ["timeout", "connection", "network", "temporary", "rate limit", "503", "502", "504"]

/-- Python substring containment (the in operator) on character lists: the
pattern occurs contiguously somewhere in the text. -/
def containsSub (pat : List Char) : List Char → Bool
  | [] => pat.isEmpty
  | c :: rest => pat.isPrefixOf (c :: rest) || containsSub pat rest

/-- ClaudeHandler._is_retryable_error: the lowercased error message contains
one of the retryable keywords. -/
def is_retryable_error (error_message : String) : Bool :=
  RETRYABLE_ERRORS.any fun keyword =>
    containsSub keyword.toList (error_message.toList.map Char.toLower)

/-- Constructor parameters of ClaudeHandler that drive retry behaviour. -/
structure RetryCfg where
  max_retries : ℕ := 3
  initial_backoff : ℚ := 1
  max_backoff : ℚ := 60
  timeout : ℕ := 300

/-- ClaudeHandler._calculate_backoff: exponential backoff capped at
max_backoff; attempt is 1-indexed. -/
def _calculate_backoff (cfg : RetryCfg) (attempt : ℕ) : ℚ :=
  min (cfg.initial_backoff * 2 ^ (attempt - 1)) cfg.max_backoff

/-- The result dict built by ClaudeHandler._call_sync or ClaudeHandler.call.
Each field models one key of the Python dict; a key that the branch in
question leaves out of the dict is modelled as none. -/
structure SyncDict where
  success : JValue
  result : Option JValue
  cost_usd : Option JValue
  error : Option JValue
  retries : Option ℕ

/-- Outcome of the one subprocess.run inside _call_sync. For a completed run,
parsed is the outcome of json.loads applied to the stripped stdout (none when
stdout is not valid JSON). -/
inductive RunOutcome where
  | completed (stdout : String) (parsed : Option JValue)
  | timeoutExpired
  | fileNotFound
  | otherError (msg : String)

/-- ClaudeHandler._call_sync, from the subprocess outcome on: strips stdout,
treats an empty output as a failure, a non-JSON output as a successful plain
text result with zero cost, and a JSON object via dict.get with the defaults
of the source. -/
def _call_sync (cfg : RetryCfg) (claude_path : String) (out : RunOutcome) : SyncDict :=
  match out with
  | .completed stdout parsed =>
    let output := pyStrip stdout
    if output = "" then
      { success := .bool false, result := none, cost_usd := none,
        error := some (.str "Claude无响应"), retries := none }
    else
      match parsed with
      | none =>
        { success := .bool true, result := some (.str output),
          cost_usd := some (.num 0), error := none, retries := none }
      | some (.obj fields) =>
        { success := (pyGet fields "success").getD (.bool true),
          result := some ((pyGet fields "result").getD ((pyGet fields "response").getD (.str ""))),
          cost_usd := some ((pyGet fields "cost_usd").getD (.num 0)),
          error := some ((pyGet fields "error").getD (.str "")),
          retries := none }
      | some v =>
        { success := .bool true, result := some (.str (pyStr v)),
          cost_usd := some (.num 0), error := none, retries := none }
  | .timeoutExpired =>
    { success := .bool false, result := none, cost_usd := none,
      error := some (.str ("Claude响应超时（超过" ++ toString cfg.timeout ++ "秒）")),
      retries := none }
  | .fileNotFound =>
    { success := .bool false, result := none, cost_usd := none,
      error := some (.str ("Claude CLI不存在：" ++ claude_path)), retries := none }
  | .otherError msg =>
    { success := .bool false, result := none, cost_usd := none,
      error := some (.str ("调用失败: " ++ msg)), retries := none }

/-- One attempt of the retry loop of ClaudeHandler.call: either _call_sync
returned a dict, or the attempt raised with the given message. -/
inductive AttemptOutcome where
  | ok (r : SyncDict)
  | exc (msg : String)

/-- The string that call passes to the retry classifier for a returned dict:
result.get of the error key with default empty string (a non-string error
value, which no conversation produces, is rendered via str). -/
def errKeyString (r : SyncDict) : String :=
  match r.error with
  | none => ""
  | some (.str s) => s
  | some v => pyStr v

/-- Rendering of the last_error variable inside an f-string: Python renders
None as the text None. -/
def renderLastError : Option String → String
  | none => "None"
  | some s => s

/-- The return value after the for loop of call completes without returning:
the terminal failure naming the retry count and the last observed error. -/
def terminalFailure (cfg : RetryCfg) (lastError : Option String) : SyncDict :=
  { success := .bool false, result := none, cost_usd := none,
    error := some (.str ("重试" ++ toString cfg.max_retries ++ "次后仍失败: " ++
      renderLastError lastError)),
    retries := some cfg.max_retries }

/-- The retry loop of ClaudeHandler.call. The attempt counter mirrors the
Python loop variable (1-indexed); remaining counts the iterations the range
still holds, so the loop is entered with remaining = max_retries and
attempt = 1. Returns the result dict together with the list of backoff
sleeps performed, in order. -/
def callLoop (cfg : RetryCfg) (attempts : ℕ → AttemptOutcome) :
    ℕ → ℕ → Option String → SyncDict × List ℚ
  | 0, _, lastError => (terminalFailure cfg lastError, [])
  | remaining + 1, attempt, lastError =>
    match attempts attempt with
    | .ok r =>
      if truthy r.success then
        ({ r with retries := some (if attempt > 1 then attempt - 1 else 0) }, [])
      else
        let error_message := errKeyString r
        if attempt < cfg.max_retries && is_retryable_error error_message then
          let rest := callLoop cfg attempts remaining (attempt + 1) (some error_message)
          (rest.1, _calculate_backoff cfg attempt :: rest.2)
        else
          ({ r with retries := some (attempt - 1) }, [])
    | .exc msg =>
      if attempt < cfg.max_retries && is_retryable_error msg then
        let rest := callLoop cfg attempts remaining (attempt + 1) (some msg)
        (rest.1, _calculate_backoff cfg attempt :: rest.2)
      else
        ({ success := .bool false, result := none, cost_usd := none,
           error := some (.str ("调用异常: " ++ msg)), retries := some (attempt - 1) }, [])

/-- ClaudeHandler.call: when the CLI executable is not found, returns the
not-found failure directly; otherwise runs the retry loop over the oracle of
attempt outcomes. Returns the result dict and the backoff sleeps performed. -/
def call (cfg : RetryCfg) (cliFound : Bool) (attempts : ℕ → AttemptOutcome) :
    SyncDict × List ℚ :=
  if cliFound then
    callLoop cfg attempts cfg.max_retries 1 none
  else
    ({ success := .bool false, result := none, cost_usd := none,
       error := some (.str "找不到Claude CLI，请确认已安装：npm install -g @anthropic-ai/claude-code"),
       retries := some 0 }, [])

/-! ### Bot message dedup (src/bot.py, Bot.on_message) -/

/-- The fields of an inbound OneBot event that Bot.on_message reads. A field
produced by dict.get that may be missing is an Option. -/
structure MsgData where
  post_type : String
  message_type : Option String
  user_id : Option Int
  group_id : Option Int
  sub_type : String
  to_me : Bool

/-- Rendering of an optional value inside an f-string: Python renders None as
the text None. -/
def strPart : Option String → String
  | none => "None"
  | some s => s

/-- Rendering of an optional integer inside an f-string. -/
def intPart : Option Int → String
  | none => "None"
  | some i => toString i

/-- The group part of the dedup key: Python group_id or the literal private,
where both a missing group_id and a zero group_id are falsy. -/
def groupPart : Option Int → String
  | none => "private"
  | some g => if g = 0 then "private" else toString g

/-- The message_id dedup key computed by Bot.on_message:
message_type, user_id and group_id-or-private joined by underscores. -/
def conversationKey (data : MsgData) : String :=
  strPart data.message_type ++ "_" ++ intPart data.user_id ++ "_" ++ groupPart data.group_id

/-- An externally visible side effect of the per-event handlers: a reply sent
through the OneBot client, or an invocation of the Claude handler. -/
inductive Effect where
  | reply (target : Int) (msg : String)
  | invoke (payload : String)

/-- How the body of the try block of on_message terminates: a normal return,
an exception raised by the handler (caught by the except clause), or a task
cancellation (which propagates, but only after the finally clause runs). -/
inductive ExitKind where
  | normal
  | raised
  | cancelled

/-- Oracle for what the dispatched handler (handle_private_message or
handle_group_message and everything below them) does: the effects it performs
and how it terminates. -/
structure Processing where
  effects : List Effect
  exit : ExitKind

/-- Result of one on_message run: the in-flight set while the handler runs,
the set after the call completes, the effects performed, and whether the
event was dropped by the dedup check. -/
structure OnMessageResult where
  duringSet : Finset String
  finalSet : Finset String
  effects : List Effect
  dropped : Bool

/-- The try/except/finally tail of on_message: whichever way the handler
exits, the finally clause discards the key from the in-flight set; the
effects the handler performed up to that point stand. -/
def onMessageFinish (during : Finset String) (key : String) (proc : Processing) :
    Finset String × List Effect :=
  match proc.exit with
  | .normal => (during.erase key, proc.effects)
  | .raised => (during.erase key, proc.effects)
  | .cancelled => (during.erase key, proc.effects)

/-- Bot.on_message over the in-flight set: non-message events are ignored;
an event whose dedup key is already in flight is dropped with no effects;
otherwise the key is added, the handler runs, and the finally clause removes
the key on every exit path. -/
def on_message (inflight : Finset String) (data : MsgData) (proc : Processing) :
    OnMessageResult :=
  if data.post_type ≠ "message" then
    ⟨inflight, inflight, [], false⟩
  else
    let key := conversationKey data
    if key ∈ inflight then
      ⟨inflight, inflight, [], true⟩
    else
      let during := insert key inflight
      let fin := onMessageFinish during key proc
      ⟨during, fin.1, fin.2, false⟩

/-! ### Bot heartbeat supervisor (src/bot.py, _heartbeat_loop and friends) -/

/-- Bot construction parameters that drive the heartbeat supervisor. -/
structure HBCfg where
  max_connection_failures : ℕ := 3

/-- The mutable Bot state touched by the heartbeat supervisor. -/
structure BotHB where
  online_status : Bool
  connection_failures : ℕ
  last_heartbeat_time : Option ℕ

/-- A status snapshot passed to the registered status callbacks by
_notify_status_change (the timestamp is not modelled). -/
structure Notif where
  online : Bool
  connection_failures : ℕ
deriving DecidableEq

/-- Environment of one iteration of the heartbeat loop: what
client.is_connected() returns, whether the websocket handle is present and
open, whether the websocket ping succeeds, and the loop time. -/
structure ProbeEnv where
  is_connected : Bool
  wsOpen : Bool
  pingOk : Bool
  now : ℕ

/-- Bot._handle_disconnect: when currently online, go offline and notify the
status callbacks; otherwise do nothing. -/
def _handle_disconnect (s : BotHB) : BotHB × List Notif :=
  if s.online_status then
    let s2 : BotHB := { s with online_status := false }
    (s2, [⟨false, s2.connection_failures⟩])
  else
    (s, [])

/-- Bot._handle_reconnect: when currently offline, go online, reset the
failure counter, and notify the status callbacks; otherwise do nothing. -/
def _handle_reconnect (s : BotHB) : BotHB × List Notif :=
  if !s.online_status then
    (⟨true, 0, s.last_heartbeat_time⟩, [⟨true, 0⟩])
  else
    (s, [])

/-- Bot._test_connection: when the websocket is open and the ping succeeds,
record the heartbeat time and reset a positive failure counter; otherwise
(closed handle or ping error, both caught by the same except clause)
increment the failure counter and, at the threshold, handle a disconnect. -/
def _test_connection (cfg : HBCfg) (s : BotHB) (env : ProbeEnv) : BotHB × List Notif :=
  if env.wsOpen && env.pingOk then
    let s1 : BotHB := { s with last_heartbeat_time := some env.now }
    if s1.connection_failures > 0 then
      ({ s1 with connection_failures := 0 }, [])
    else
      (s1, [])
  else
    let s1 : BotHB := { s with connection_failures := s.connection_failures + 1 }
    if s1.connection_failures ≥ cfg.max_connection_failures then
      _handle_disconnect s1
    else
      (s1, [])

/-- One iteration of Bot._heartbeat_loop after the sleep: a disconnected
client is handled and the iteration ends (continue); otherwise the connection
is probed, and afterwards a positive failure counter triggers the reconnect
handler. -/
def heartbeatIteration (cfg : HBCfg) (s : BotHB) (env : ProbeEnv) : BotHB × List Notif :=
  if !env.is_connected then
    _handle_disconnect s
  else
    let t := _test_connection cfg s env
    if t.1.connection_failures > 0 then
      let r := _handle_reconnect t.1
      (r.1, t.2 ++ r.2)
    else
      t

/-- Several iterations of the heartbeat loop, collecting all notifications in
order. -/
def heartbeatRun (cfg : HBCfg) : BotHB → List ProbeEnv → BotHB × List Notif
  | s, [] => (s, [])
  | s, env :: rest =>
    let one := heartbeatIteration cfg s env
    let more := heartbeatRun cfg one.1 rest
    (more.1, one.2 ++ more.2)

/-! ### Bot long message chunking (src/bot.py, Bot.send_long_message) -/

/-- An awaited step of send_long_message: a send of one chunk through the
supplied send function, or an asyncio.sleep of the given seconds. -/
inductive SendEvent where
  | send (chunk : List Char)
  | sleep (secs : ℚ)

/-- The chunking loop of send_long_message: the slices
message[i : i + max_length] for i = 0, max_length, 2 * max_length, ... (the
enclosing function only reaches the loop with a positive max_length and a
nonempty message). -/
def pyChunks (max_length : ℕ) (s : List Char) : List (List Char) :=
  if h : s = [] ∨ max_length = 0 then
    []
  else
    s.take max_length :: pyChunks max_length (s.drop max_length)
termination_by s.length
decreasing_by
  simp only [not_or] at h
  simp only [List.length_drop]
  exact Nat.sub_lt (List.length_pos.mpr h.1) (Nat.pos_of_ne_zero h.2)

/-- Bot.send_long_message: a message within the length cap is sent as is;
a longer one is sent slice by slice, with an 0.5 second sleep awaited after
each slice. -/
def send_long_message (message : List Char) (max_length : ℕ := 2000) : List SendEvent :=
  if message.length ≤ max_length then
    [.send message]
  else
    (pyChunks max_length message).flatMap fun c => [.send c, .sleep (1 / 2)]

/-- The chunks sent by a list of send events, in order. -/
def sentChunks (events : List SendEvent) : List (List Char) :=
  events.filterMap fun e =>
    match e with
    | .send c => some c
    | .sleep _ => none

/-! ### Bot command handling (src/bot.py, is_command and strip_command_prefix) -/

/-- The default command_prefix list from the Bot constructor. -/
def commandPrefixes : List String := ["/c", "/claude", "/问", "/ask"]

/-- Python str.startswith, on logical characters. -/
def pyStartsWith (message p : String) : Bool :=
  p.toList.isPrefixOf message.toList

/-- Python slicing message[n:], on logical characters. -/
def pySliceFrom (message : String) (n : ℕ) : String :=
  String.mk (message.toList.drop n)

/-- Bot.is_command: the message starts with one of the configured command
markers. -/
def is_command (ps : List String) (message : String) : Bool :=
  match ps with
  | [] => false
  | p :: rest => if pyStartsWith message p then true else is_command rest message

/-- Bot.strip_command_prefix: for the first configured marker the message
starts with, take the slice after it and strip surrounding whitespace;
with no match, return the message unchanged. -/
def stripCommandPrefix (ps : List String) (message : String) : String :=
  match ps with
  | [] => message
  | p :: rest =>
    if pyStartsWith message p then
      pyStrip (pySliceFrom message p.length)
    else
      stripCommandPrefix rest message

/-! ### OneBot client send (src/onebot_client.py, OneBotClient.send) -/

/-- The websocket handle as send observes it. -/
structure WsHandle where
  closed : Bool

/-- The OneBotClient state that send reads and writes. -/
structure ClientState where
  websocket : Option WsHandle
  connected : Bool

/-- How a send call ends: the ConnectionError raised for an absent or closed
handle, a re-raised error from the underlying socket write, or a successful
write of the serialized message. -/
inductive SendResult where
  | connError
  | writeError (msg : String)
  | okSent (message : String)

/-- The guard of OneBotClient.send: the handle is absent or reports closed. -/
def wsAbsentOrClosed (s : ClientState) : Bool :=
  match s.websocket with
  | none => true
  | some w => w.closed

/-- OneBotClient.send: with an absent or closed handle, raise ConnectionError
before writing anything; otherwise serialize and write (payload stands for
the json.dumps output), and when the write itself raises, downgrade the
connected flag and re-raise. -/
def send (s : ClientState) (payload : String) (writeFail : Option String) :
    ClientState × SendResult :=
  if wsAbsentOrClosed s then
    (s, .connError)
  else
    match writeFail with
    | some msg => ({ s with connected := false }, .writeError msg)
    | none => (s, .okSent payload)

/-! ### Derived data used by the theorems -/

/-- The constructor defaults of ClaudeHandler: max_retries 3, initial backoff
1 second, cap 60 seconds, timeout 300 seconds. -/
def defaultRetryCfg : RetryCfg := {}

/-- The constructor defaults of the Bot heartbeat supervisor: threshold 3. -/
def defaultHBCfg : HBCfg := {}

/-- An attempt outcome that call classifies as a retryable failure: either a
returned dict reporting failure with a retryable error message, or a raised
exception with a retryable message. -/
def retryableFailure : AttemptOutcome → Prop
  | .ok r => truthy r.success = false ∧ is_retryable_error (errKeyString r) = true
  | .exc msg => is_retryable_error msg = true

/-- A heartbeat iteration environment in which the client reports connected
but the websocket ping raises. -/
def failEnv : ProbeEnv := ⟨true, true, false, 0⟩

/-- A heartbeat iteration environment in which the client reports connected
and the websocket ping succeeds. -/
def okEnv : ProbeEnv := ⟨true, true, true, 0⟩

/-- A sync attempt dict reporting failure with the retryable message
timeout, as produced by the timeout arm of _call_sync style runs. -/
def timeoutFail : SyncDict := ⟨.bool false, none, none, some (.str "timeout"), none⟩

/-- A sync attempt dict reporting success with a plain text result. -/
def okDict : SyncDict := ⟨.bool true, some (.str "hi"), some (.num (1 / 500)), none, none⟩

/-- A concrete attempt oracle used to witness the retry theorems: retryable
failures on attempts 1 and 2, success from attempt 3 on. -/
def attemptsW (i : ℕ) : AttemptOutcome :=
  if i < 3 then .ok timeoutFail else .ok okDict

/-- A concrete private message event used to witness the dedup theorem. -/
def msgDataW : MsgData :=
  { post_type := "message", message_type := some "private", user_id := some 123,
    group_id := none, sub_type := "friend", to_me := false }

/-- A concrete handler behaviour used to witness the dedup theorem. -/
def procW : Processing := ⟨[.reply 123 "ok"], .normal⟩

/-! ## Theorems -/

/-- C4: for every 1-indexed attempt n, the backoff policy returns
min(initial_backoff * 2 ^ (n - 1), max_backoff), and with the default
configuration (initial 1, cap 60) attempts 1 through 9 yield the delays
1, 2, 4, 8, 16, 32, 60, 60, 60. -/
theorem backoff_policy_c4 (cfg : RetryCfg) (n : ℕ) (h : 1 ≤ n) :
    _calculate_backoff cfg n = min (cfg.initial_backoff * 2 ^ (n - 1)) cfg.max_backoff ∧
    (List.range 9).map (fun k => _calculate_backoff defaultRetryCfg (k + 1)) =
      [1, 2, 4, 8, 16, 32, 60, 60, 60] := by
  refine ⟨rfl, ?_⟩
  norm_num [List.range_succ, _calculate_backoff, defaultRetryCfg, min_def]

/-- Witness for C4 at attempt 7 of the default configuration. -/
theorem backoff_policy_c4_witness :
    1 ≤ 7 ∧
    (_calculate_backoff defaultRetryCfg 7 =
        min (defaultRetryCfg.initial_backoff * 2 ^ (7 - 1)) defaultRetryCfg.max_backoff ∧
      (List.range 9).map (fun k => _calculate_backoff defaultRetryCfg (k + 1)) =
        [1, 2, 4, 8, 16, 32, 60, 60, 60]) :=
  ⟨by decide, backoff_policy_c4 defaultRetryCfg 7 (by decide)⟩

/-- C2 (divergence witness): in the Offline state with failure counter 2, a
heartbeat iteration whose probe succeeds (client connected, websocket open,
ping ok) resets the failure counter and records the heartbeat time, but
leaves the supervisor Offline and notifies nobody — the reconnect check runs
only after _test_connection has already zeroed the counter, so the claimed
Offline to Online transition never happens on a successful probe. -/
theorem heartbeat_success_stays_offline_c2 :
    heartbeatIteration defaultHBCfg ⟨false, 2, none⟩ ⟨true, true, true, 100⟩ =
      (⟨false, 0, some 100⟩, []) := rfl

/-- C6 (divergence witness): from Online with counter 0, three consecutive
ping failures emit an offline notification immediately followed by an online
notification and leave the supervisor Online with counter 0 (the reconnect
handler fires right after the threshold disconnect, in the same iteration);
six consecutive failures therefore emit the pair twice. A single failure
followed by a success leaves the supervisor Online with no notification,
as the claim states. -/
theorem heartbeat_three_failures_c6 :
    heartbeatRun defaultHBCfg ⟨true, 0, none⟩ [failEnv, failEnv, failEnv] =
      (⟨true, 0, none⟩, [⟨false, 3⟩, ⟨true, 0⟩]) ∧
    (heartbeatRun defaultHBCfg ⟨true, 0, none⟩ (List.replicate 6 failEnv)).2 =
      [⟨false, 3⟩, ⟨true, 0⟩, ⟨false, 3⟩, ⟨true, 0⟩] ∧
    (heartbeatRun defaultHBCfg ⟨true, 0, none⟩ [failEnv, okEnv]).1.online_status = true ∧
    (heartbeatRun defaultHBCfg ⟨true, 0, none⟩ [failEnv, okEnv]).2 = [] :=
  ⟨rfl, rfl, rfl, rfl⟩

/-- C9 (counterexample): with a present but closed websocket handle and the
connected flag still raised, send raises ConnectionError yet leaves the
connected flag raised — not every error raised out of send downgrades the
flag. -/
theorem send_closed_c9_counterexample :
    (send ⟨some ⟨true⟩, true⟩ "x" none).2 = SendResult.connError ∧
    (send ⟨some ⟨true⟩, true⟩ "x" none).1.connected = true ∧
    (send ⟨some ⟨true⟩, true⟩ "x" none).1.connected ≠ false :=
  ⟨rfl, rfl, by decide⟩

/-- C9 (amended): send raises ConnectionError whenever the handle is absent
or closed, writing nothing and leaving the client state (connected flag
included) unchanged; an error raised by the socket write itself downgrades
the connected flag to false; otherwise the serialized payload is written
with the state unchanged. -/
theorem send_c9_amended (s : ClientState) (payload : String) (writeFail : Option String) :
    (wsAbsentOrClosed s = true → send s payload writeFail = (s, .connError)) ∧
    (wsAbsentOrClosed s = false → ∀ msg, writeFail = some msg →
      send s payload writeFail = ({ s with connected := false }, .writeError msg)) ∧
    (wsAbsentOrClosed s = false → writeFail = none →
      send s payload writeFail = (s, .okSent payload)) := by
  refine ⟨fun h => ?_, fun h msg hw => ?_, fun h hw => ?_⟩
  · simp [send, h]
  · simp [send, h, hw]
  · simp [send, h, hw]

/-- Witness for C9 at a closed handle, a failing write, and a clean write. -/
theorem send_c9_amended_witness :
    (wsAbsentOrClosed ⟨none, false⟩ = true ∧
      send ⟨none, false⟩ "x" none = (⟨none, false⟩, .connError)) ∧
    (wsAbsentOrClosed ⟨some ⟨false⟩, true⟩ = false ∧
      send ⟨some ⟨false⟩, true⟩ "x" (some "reset") =
        (⟨some ⟨false⟩, false⟩, .writeError "reset")) ∧
    (wsAbsentOrClosed ⟨some ⟨false⟩, true⟩ = false ∧
      send ⟨some ⟨false⟩, true⟩ "x" none = (⟨some ⟨false⟩, true⟩, .okSent "x")) :=
  ⟨⟨rfl, (send_c9_amended ⟨none, false⟩ "x" none).1 rfl⟩,
   ⟨rfl, (send_c9_amended ⟨some ⟨false⟩, true⟩ "x" (some "reset")).2.1 rfl "reset" rfl⟩,
   ⟨rfl, (send_c9_amended ⟨some ⟨false⟩, true⟩ "x" none).2.2 rfl rfl⟩⟩

/-- C10 (counterexample): stripping is not the bare removal of the first
matching marker: the remainder is additionally whitespace-stripped, so the
message consisting of the first default marker, a space and hi strips to hi,
not to the bare suffix. -/
theorem strip_c10_counterexample :
    stripCommandPrefix commandPrefixes "/c hi" = "hi" ∧
    pySliceFrom "/c hi" ("/c").length = " hi" ∧
    stripCommandPrefix commandPrefixes "/c hi" ≠ pySliceFrom "/c hi" ("/c").length := by
  refine ⟨?_, ?_, ?_⟩ <;> decide

/-- C10 (amended): stripping removes the first marker in configured list
order that the message starts with and then trims surrounding whitespace
from the remainder; with no matching marker the message is returned
unchanged; in particular, under the default list the message /claude hi is
stripped of only /c, producing laude hi and never hi. -/
theorem strip_c10_amended (ps : List String) (message : String) :
    ((∀ q ∈ ps, pyStartsWith message q = false) →
      is_command ps message = false ∧ stripCommandPrefix ps message = message) ∧
    (∀ l1 p l2, ps = l1 ++ p :: l2 → (∀ q ∈ l1, pyStartsWith message q = false) →
      pyStartsWith message p = true →
      stripCommandPrefix ps message = pyStrip (pySliceFrom message p.length)) ∧
    stripCommandPrefix commandPrefixes "/claude hi" = "laude hi" ∧
    stripCommandPrefix commandPrefixes "/claude hi" ≠ "hi" := by
  refine ⟨?_, ?_, by decide, by decide⟩
  · intro h
    induction ps with
    | nil => exact ⟨rfl, rfl⟩
    | cons p rest ih =>
      have hp : pyStartsWith message p = false := h p (by simp)
      have hrest := ih fun q hq => h q (by simp [hq])
      refine ⟨?_, ?_⟩
      · rw [is_command, if_neg (by simp [hp])]
        exact hrest.1
      · rw [stripCommandPrefix, if_neg (by simp [hp])]
        exact hrest.2
  · intro l1 p l2 hps hnone hp
    subst hps
    induction l1 with
    | nil => rw [List.nil_append, stripCommandPrefix, if_pos (by simp [hp])]
    | cons q rest ih =>
      have hq : pyStartsWith message q = false := hnone q (by simp)
      rw [List.cons_append, stripCommandPrefix, if_neg (by simp [hq])]
      exact ih fun x hx => hnone x (by simp [hx])

/-- Witness for C10: the no-match branch at a message with no marker, and
the first-match branch at the last default marker. -/
theorem strip_c10_amended_witness :
    ((∀ q ∈ commandPrefixes, pyStartsWith "hello" q = false) ∧
      is_command commandPrefixes "hello" = false ∧
      stripCommandPrefix commandPrefixes "hello" = "hello") ∧
    (commandPrefixes = ["/c", "/claude", "/问"] ++ "/ask" :: [] ∧
      pyStartsWith "/ask q" "/ask" = true ∧
      stripCommandPrefix commandPrefixes "/ask q" =
        pyStrip (pySliceFrom "/ask q" ("/ask").length)) :=
  ⟨⟨by decide, (strip_c10_amended commandPrefixes "hello").1 (by decide)⟩,
   ⟨rfl, by decide,
    (strip_c10_amended commandPrefixes "/ask q").2.1 ["/c", "/claude", "/问"] "/ask" []
      rfl (by decide) (by decide)⟩⟩

/-- C1: for a chat event (post_type message) whose dedup key is already in
the in-flight set, on_message drops the event with no effects and leaves the
set unchanged; for an accepted event the key is in the set while the handler
runs, the set after the call equals the initial set whichever way the
handler exits (normal return, raised error, or cancellation), and the
effects are exactly those of the handler. -/
theorem on_message_dedup_c1 (inflight : Finset String) (data : MsgData) (proc : Processing)
    (hpost : data.post_type = "message") :
    (conversationKey data ∈ inflight →
      on_message inflight data proc = ⟨inflight, inflight, [], true⟩) ∧
    (conversationKey data ∉ inflight →
      (on_message inflight data proc).duringSet = insert (conversationKey data) inflight ∧
      conversationKey data ∈ (on_message inflight data proc).duringSet ∧
      (on_message inflight data proc).finalSet = inflight ∧
      (on_message inflight data proc).effects = proc.effects ∧
      (on_message inflight data proc).dropped = false) := by
  constructor
  · intro hmem
    simp [on_message, hpost, hmem]
  · intro hmem
    have hrun : on_message inflight data proc =
        ⟨insert (conversationKey data) inflight,
         (insert (conversationKey data) inflight).erase (conversationKey data),
         proc.effects, false⟩ := by
      rcases proc with ⟨effects, exit⟩
      cases exit <;> simp [on_message, hpost, hmem, onMessageFinish]
    rw [hrun]
    refine ⟨rfl, by simp, ?_, rfl, rfl⟩
    exact Finset.erase_insert hmem

/-- Witness for C1: a duplicate of a concrete private event is dropped, and
the same event against an empty in-flight set is processed and cleaned up. -/
theorem on_message_dedup_c1_witness :
    msgDataW.post_type = "message" ∧
    (conversationKey msgDataW ∈ ({conversationKey msgDataW} : Finset String) ∧
      on_message {conversationKey msgDataW} msgDataW procW =
        ⟨{conversationKey msgDataW}, {conversationKey msgDataW}, [], true⟩) ∧
    (conversationKey msgDataW ∉ (∅ : Finset String) ∧
      (on_message ∅ msgDataW procW).finalSet = ∅ ∧
      (on_message ∅ msgDataW procW).effects = procW.effects) :=
  ⟨rfl,
   ⟨Finset.mem_singleton_self _,
    (on_message_dedup_c1 {conversationKey msgDataW} msgDataW procW rfl).1
      (Finset.mem_singleton_self _)⟩,
   ⟨Finset.not_mem_empty _,
    ((on_message_dedup_c1 ∅ msgDataW procW rfl).2 (Finset.not_mem_empty _)).2.2.1,
    ((on_message_dedup_c1 ∅ msgDataW procW rfl).2 (Finset.not_mem_empty _)).2.2.2.1⟩⟩

/-- C8: classification of a completed CLI run by _call_sync: whitespace-only
stdout yields the no-response failure; non-JSON stdout yields a success
carrying the stripped stdout as text with zero cost; stdout parsing to a
JSON object yields a dict whose success defaults to true, whose text comes
from the result key falling back to response and then to the empty string,
whose cost comes from cost_usd defaulting to 0, and whose error comes from
the error key (defaulting to the empty string). -/
theorem call_sync_classify_c8 (cfg : RetryCfg) (path stdout : String)
    (fields : List (String × JValue)) :
    (pyStrip stdout = "" → ∀ parsed, _call_sync cfg path (.completed stdout parsed) =
      ⟨.bool false, none, none, some (.str "Claude无响应"), none⟩) ∧
    (pyStrip stdout ≠ "" → _call_sync cfg path (.completed stdout none) =
      ⟨.bool true, some (.str (pyStrip stdout)), some (.num 0), none, none⟩) ∧
    (pyStrip stdout ≠ "" → _call_sync cfg path (.completed stdout (some (.obj fields))) =
      ⟨(pyGet fields "success").getD (.bool true),
       some ((pyGet fields "result").getD ((pyGet fields "response").getD (.str ""))),
       some ((pyGet fields "cost_usd").getD (.num 0)),
       some ((pyGet fields "error").getD (.str "")), none⟩) := by
  refine ⟨fun h parsed => ?_, fun h => ?_, fun h => ?_⟩ <;>
    simp [_call_sync, h]

/-- Witness for C8: a whitespace-only stdout, a plain text stdout, and a
JSON object stdout with a failure report. -/
theorem call_sync_classify_c8_witness :
    (pyStrip " \n" = "" ∧
      _call_sync defaultRetryCfg "claude" (.completed " \n" none) =
        ⟨.bool false, none, none, some (.str "Claude无响应"), none⟩) ∧
    (pyStrip " hi " ≠ "" ∧
      _call_sync defaultRetryCfg "claude" (.completed " hi " none) =
        ⟨.bool true, some (.str (pyStrip " hi ")), some (.num 0), none, none⟩) ∧
    (pyStrip "x" ≠ "" ∧
      _call_sync defaultRetryCfg "claude"
          (.completed "x" (some (.obj [("success", .bool false), ("error", .str "boom")]))) =
        ⟨(pyGet [("success", .bool false), ("error", .str "boom")] "success").getD (.bool true),
         some ((pyGet [("success", .bool false), ("error", .str "boom")] "result").getD
           ((pyGet [("success", .bool false), ("error", .str "boom")] "response").getD (.str ""))),
         some ((pyGet [("success", .bool false), ("error", .str "boom")] "cost_usd").getD (.num 0)),
         some ((pyGet [("success", .bool false), ("error", .str "boom")] "error").getD (.str "")),
         none⟩) :=
  ⟨⟨by decide,
    (call_sync_classify_c8 defaultRetryCfg "claude" " \n" []).1 (by decide) none⟩,
   ⟨by decide,
    (call_sync_classify_c8 defaultRetryCfg "claude" " hi " []).2.1 (by decide)⟩,
   ⟨by decide,
    (call_sync_classify_c8 defaultRetryCfg "claude" "x"
        [("success", .bool false), ("error", .str "boom")]).2.2 (by decide)⟩⟩

/-- Unfolding: chunking an empty message yields no chunks. -/
theorem pyChunks_nil (n : ℕ) : pyChunks n [] = [] := by
  rw [pyChunks]
  simp

/-- Unfolding: chunking a nonempty message with a positive size yields the
first slice followed by the chunks of the rest. -/
theorem pyChunks_cons (n : ℕ) (hn : n ≠ 0) (s : List Char) (hs : s ≠ []) :
    pyChunks n s = s.take n :: pyChunks n (s.drop n) := by
  rw [pyChunks]
  simp [hs, hn]

/-- Concatenating the chunks in order reproduces the message. -/
theorem pyChunks_join (n : ℕ) (hn : n ≠ 0) (s : List Char) :
    (pyChunks n s).flatMap id = s := by
  generalize hl : s.length = L
  induction L using Nat.strong_induction_on generalizing s with
  | _ L ih =>
    by_cases hs : s = []
    · subst hs
      simp [pyChunks_nil]
    · subst hl
      rw [pyChunks_cons n hn s hs, List.flatMap_cons, id]
      rw [ih (s.drop n).length ?_ (s.drop n) rfl]
      · exact List.take_append_drop n s
      · simp only [List.length_drop]
        exact Nat.sub_lt (List.length_pos.mpr hs) (Nat.pos_of_ne_zero hn)

/-- Every chunk is nonempty and at most the chunk size long. -/
theorem pyChunks_mem (n : ℕ) (hn : n ≠ 0) (s : List Char) :
    ∀ c ∈ pyChunks n s, c ≠ [] ∧ c.length ≤ n := by
  generalize hl : s.length = L
  induction L using Nat.strong_induction_on generalizing s with
  | _ L ih =>
    by_cases hs : s = []
    · subst hs
      simp [pyChunks_nil]
    · subst hl
      rw [pyChunks_cons n hn s hs]
      intro c hc
      rcases List.mem_cons.mp hc with hc | hc
      · subst hc
        refine ⟨?_, by simpa using Nat.min_le_left n s.length⟩
        simp only [ne_eq, List.take_eq_nil_iff, not_or]
        exact ⟨hn, hs⟩
      · exact ih (s.drop n).length
          (by simpa using Nat.sub_lt (List.length_pos.mpr hs) (Nat.pos_of_ne_zero hn))
          (s.drop n) rfl c hc

/-- Every chunk except the last has length exactly the chunk size. -/
theorem pyChunks_dropLast_length (n : ℕ) (hn : n ≠ 0) (s : List Char) :
    ∀ c ∈ (pyChunks n s).dropLast, c.length = n := by
  generalize hl : s.length = L
  induction L using Nat.strong_induction_on generalizing s with
  | _ L ih =>
    by_cases hs : s = []
    · subst hs
      simp [pyChunks_nil]
    · subst hl
      rw [pyChunks_cons n hn s hs]
      by_cases hrest : s.drop n = []
      · rw [hrest, pyChunks_nil]
        simp
      · cases htail : pyChunks n (s.drop n) with
        | nil =>
          rw [pyChunks_cons n hn _ hrest] at htail
          exact absurd htail (by simp)
        | cons hd tl =>
          rw [List.dropLast_cons₂]
          intro c hc
          rcases List.mem_cons.mp hc with hc | hc
          · subst hc
            have : n ≤ s.length := by
              by_contra hlt
              exact hrest (List.drop_eq_nil_of_le (le_of_not_le hlt))
            simpa using Nat.min_eq_left this
          · rw [← htail] at hc
            exact ih (s.drop n).length
              (by simpa using Nat.sub_lt (List.length_pos.mpr hs) (Nat.pos_of_ne_zero hn))
              (s.drop n) rfl c hc

/-- The sends of the chunked event sequence are exactly the chunks. -/
theorem sentChunks_flatMap (l : List (List Char)) (x : ℚ) :
    sentChunks (l.flatMap fun c => [.send c, .sleep x]) = l := by
  induction l with
  | nil => rfl
  | cons c rest ih =>
    simpa [sentChunks, List.flatMap_cons] using ih

/-- C7: send_long_message sends a message of at most 2000 characters as one
send with no sleep; a longer message is sent as the slices of 2000 logical
characters in order, each followed by the half second sleep, the slices
concatenate back to the message, every slice but the last is exactly 2000
characters and every slice is nonempty and at most 2000 characters; a
message of 4500 characters yields slice lengths 2000, 2000, 500. -/
theorem send_long_message_c7 (message : List Char) :
    (message.length ≤ 2000 → send_long_message message = [.send message]) ∧
    (2000 < message.length →
      send_long_message message =
        (pyChunks 2000 message).flatMap (fun c => [.send c, .sleep (1 / 2)]) ∧
      sentChunks (send_long_message message) = pyChunks 2000 message ∧
      (pyChunks 2000 message).flatMap id = message ∧
      (∀ c ∈ (pyChunks 2000 message).dropLast, c.length = 2000) ∧
      (∀ c ∈ pyChunks 2000 message, c ≠ [] ∧ c.length ≤ 2000)) ∧
    (message.length = 4500 →
      (pyChunks 2000 message).map List.length = [2000, 2000, 500]) := by
  refine ⟨fun h => ?_, fun h => ?_, fun h => ?_⟩
  · simp [send_long_message, h]
  · have hdef : send_long_message message =
        (pyChunks 2000 message).flatMap (fun c => [.send c, .sleep (1 / 2)]) := by
      simp [send_long_message, Nat.not_le.mpr h]
    refine ⟨hdef, ?_, pyChunks_join 2000 (by decide) message,
      pyChunks_dropLast_length 2000 (by decide) message,
      pyChunks_mem 2000 (by decide) message⟩
    rw [hdef, sentChunks_flatMap]
  · have h1 : message ≠ [] := by
      intro he
      rw [he] at h
      simp at h
    have hd1 : (message.drop 2000).length = 2500 := by simp [h]
    have h2 : message.drop 2000 ≠ [] := by
      intro he
      rw [he] at hd1
      simp at hd1
    have hd2 : ((message.drop 2000).drop 2000).length = 500 := by simp [h]
    have h3 : (message.drop 2000).drop 2000 ≠ [] := by
      intro he
      rw [he] at hd2
      simp at hd2
    have hd3 : (((message.drop 2000).drop 2000).drop 2000).length = 0 := by simp [h]
    have h4 : ((message.drop 2000).drop 2000).drop 2000 = [] :=
      List.eq_nil_of_length_eq_zero hd3
    rw [pyChunks_cons 2000 (by decide) message h1,
      pyChunks_cons 2000 (by decide) _ h2,
      pyChunks_cons 2000 (by decide) _ h3,
      h4, pyChunks_nil]
    simp [h, hd1, hd2]

/-- Witness for C7: a short message is one send, and a 4500 character
message is chunked as 2000, 2000, 500. -/
theorem send_long_message_c7_witness :
    ((List.replicate 3 'a').length ≤ 2000 ∧
      send_long_message (List.replicate 3 'a') = [.send (List.replicate 3 'a')]) ∧
    ((List.replicate 4500 'b').length = 4500 ∧
      (pyChunks 2000 (List.replicate 4500 'b')).map List.length = [2000, 2000, 500]) :=
  ⟨⟨by norm_num [List.length_replicate],
    (send_long_message_c7 (List.replicate 3 'a')).1 (by norm_num [List.length_replicate])⟩,
   ⟨by norm_num [List.length_replicate],
    (send_long_message_c7 (List.replicate 4500 'b')).2.2 (by norm_num [List.length_replicate])⟩⟩

/-- One retry iteration: a retryable failure below the attempt cap sleeps
the backoff of the current attempt and continues with the next attempt (for
some recorded last error). -/
theorem callLoop_retryable_step (cfg : RetryCfg) (attempts : ℕ → AttemptOutcome)
    (remaining attempt : ℕ) (lastError : Option String)
    (hlt : attempt < cfg.max_retries)
    (hfail : retryableFailure (attempts attempt)) :
    ∃ le : Option String,
      callLoop cfg attempts (remaining + 1) attempt lastError =
        ((callLoop cfg attempts remaining (attempt + 1) le).1,
         _calculate_backoff cfg attempt :: (callLoop cfg attempts remaining (attempt + 1) le).2) := by
  cases h : attempts attempt with
  | ok r =>
    rw [h] at hfail
    simp only [retryableFailure] at hfail
    refine ⟨some (errKeyString r), ?_⟩
    simp [callLoop, h, hfail.1, hfail.2, hlt]
  | exc msg =>
    rw [h] at hfail
    simp only [retryableFailure] at hfail
    refine ⟨some msg, ?_⟩
    simp [callLoop, h, hfail, hlt]

/-- Running the retry loop across j consecutive retryable failures sleeps
the backoffs of attempts attempt, attempt+1, ..., attempt+j-1 in order and
continues from attempt+j. -/
theorem callLoop_skip (cfg : RetryCfg) (attempts : ℕ → AttemptOutcome) :
    ∀ (j remaining attempt : ℕ) (lastError : Option String),
      attempt + j ≤ cfg.max_retries → j ≤ remaining →
      (∀ i, attempt ≤ i → i < attempt + j → retryableFailure (attempts i)) →
      ∃ le, callLoop cfg attempts remaining attempt lastError =
        ((callLoop cfg attempts (remaining - j) (attempt + j) le).1,
         ((List.range j).map fun k => _calculate_backoff cfg (attempt + k)) ++
           (callLoop cfg attempts (remaining - j) (attempt + j) le).2) := by
  intro j
  induction j with
  | zero =>
    intro remaining attempt lastError hle hjr hall
    exact ⟨lastError, by simp⟩
  | succ j ih =>
    intro remaining attempt lastError hle hjr hall
    obtain ⟨rem, rfl⟩ : ∃ rem, remaining = rem + 1 := ⟨remaining - 1, by omega⟩
    obtain ⟨le1, hstep⟩ := callLoop_retryable_step cfg attempts rem attempt lastError
      (by omega) (hall attempt (by omega) (by omega))
    obtain ⟨le2, hrest⟩ := ih rem (attempt + 1) le1 (by omega) (by omega)
      (fun i h1 h2 => hall i (by omega) (by omega))
    refine ⟨le2, ?_⟩
    rw [hstep, hrest]
    have hidx : rem + 1 - (j + 1) = rem - j := by omega
    have hatt : attempt + 1 + j = attempt + (j + 1) := by omega
    have hsleeps : _calculate_backoff cfg attempt ::
        (((List.range j).map fun k => _calculate_backoff cfg (attempt + 1 + k)) ++
          (callLoop cfg attempts (rem - j) (attempt + (j + 1)) le2).2) =
        ((List.range (j + 1)).map fun k => _calculate_backoff cfg (attempt + k)) ++
          (callLoop cfg attempts (rem - j) (attempt + (j + 1)) le2).2 := by
      rw [List.range_succ_eq_map, List.map_cons, List.map_map]
      simp only [List.cons_append, Nat.add_zero]
      congr 2
      apply List.map_congr_left
      intro k _
      simp only [Function.comp_apply]
      congr 1
      omega
    rw [hidx, hatt] at *
    exact congrArg₂ Prod.mk rfl hsleeps

/-- C5: when attempts 1 through n-1 each end in a retryable failure (a
reported failure with retryable error or a raised retryable exception) and
attempt n, within the attempt cap, reports success, call returns the
successful dict with retries n-1 after sleeping exactly the backoffs of
attempts 1, ..., n-1 in order. -/
theorem call_success_c5 (cfg : RetryCfg) (attempts : ℕ → AttemptOutcome)
    (n : ℕ) (r : SyncDict) (h1 : 1 ≤ n) (h2 : n ≤ cfg.max_retries)
    (hfail : ∀ i, 1 ≤ i → i < n → retryableFailure (attempts i))
    (hok : attempts n = .ok r) (hsucc : truthy r.success = true) :
    call cfg true attempts =
      ({ r with retries := some (n - 1) },
       (List.range (n - 1)).map fun k => _calculate_backoff cfg (k + 1)) := by
  obtain ⟨le, hskip⟩ := callLoop_skip cfg attempts (n - 1) cfg.max_retries 1 none
    (by omega) (by omega) (fun i hi1 hi2 => hfail i hi1 (by omega))
  have h1n : 1 + (n - 1) = n := by omega
  rw [h1n] at hskip
  obtain ⟨rem, hrem⟩ : ∃ rem, cfg.max_retries - (n - 1) = rem + 1 :=
    ⟨cfg.max_retries - n, by omega⟩
  rw [hrem] at hskip
  have hstep : callLoop cfg attempts (rem + 1) n le =
      ({ r with retries := some (if n > 1 then n - 1 else 0) }, []) := by
    simp [callLoop, hok, hsucc]
  have hif : (if n > 1 then n - 1 else 0) = n - 1 := by
    rcases Nat.lt_or_ge 1 n with h | h
    · rw [if_pos h]
    · rw [if_neg (by omega)]
      omega
  rw [hstep, hif] at hskip
  have hmap : ((List.range (n - 1)).map fun k => _calculate_backoff cfg (1 + k)) =
      (List.range (n - 1)).map fun k => _calculate_backoff cfg (k + 1) := by
    apply List.map_congr_left
    intro k _
    congr 1
    omega
  rw [show call cfg true attempts = callLoop cfg attempts cfg.max_retries 1 none from rfl,
    hskip, hmap]
  simp

/-- Witness for C5: retryable failures on attempts 1 and 2 and success on
attempt 3 yield the success dict with retries 2 and the sleeps of attempts
1 and 2. -/
theorem call_success_c5_witness :
    (1 ≤ 3 ∧ 3 ≤ defaultRetryCfg.max_retries ∧
      (∀ i, 1 ≤ i → i < 3 → retryableFailure (attemptsW i)) ∧
      attemptsW 3 = .ok okDict ∧ truthy okDict.success = true) ∧
    call defaultRetryCfg true attemptsW =
      ({ okDict with retries := some 2 },
       (List.range 2).map fun k => _calculate_backoff defaultRetryCfg (k + 1)) := by
  have hfail : ∀ i, 1 ≤ i → i < 3 → retryableFailure (attemptsW i) := by
    intro i h1 h2
    rw [attemptsW, if_pos h2]
    exact ⟨rfl, rfl⟩
  exact ⟨⟨by omega, by decide, hfail, rfl, rfl⟩,
    call_success_c5 defaultRetryCfg attemptsW 3 okDict (by omega) (by decide) hfail rfl rfl⟩

/-- C3 (counterexample): with the default configuration, an attempt oracle
failing every attempt with the retryable message timeout makes call return
the raw last failure with retries 2 (attempts minus one), not a terminal
message naming the retry count with retries equal to max_retries 3: the
final loop iteration returns the last result directly, so the formatted
terminal failure of the source is unreachable for max_retries at least 1. -/
theorem call_exhaust_c3_counterexample :
    (call defaultRetryCfg true fun _ => .ok timeoutFail).1.retries = some 2 ∧
    (call defaultRetryCfg true fun _ => .ok timeoutFail).1.error = some (.str "timeout") ∧
    (call defaultRetryCfg true fun _ => .ok timeoutFail).1.retries ≠
      some defaultRetryCfg.max_retries ∧
    (call defaultRetryCfg true fun _ => .ok timeoutFail).2 =
      [_calculate_backoff defaultRetryCfg 1, _calculate_backoff defaultRetryCfg 2] := by
  refine ⟨rfl, rfl, by decide, rfl⟩

/-- C3 (amended): when every attempt up to max_retries (at least 1) reports
a retryable failure, call returns the final attempt result itself — its
error message unchanged — with retries max_retries - 1, after sleeping the
backoffs of attempts 1, ..., max_retries - 1; the formatted terminal
failure naming the retry count is returned only when max_retries is 0. -/
theorem call_exhaust_c3_amended (cfg : RetryCfg) (attempts : ℕ → AttemptOutcome)
    (r : SyncDict) (h1 : 1 ≤ cfg.max_retries)
    (hfail : ∀ i, 1 ≤ i → i < cfg.max_retries → retryableFailure (attempts i))
    (hlast : attempts cfg.max_retries = .ok r)
    (hlastFail : truthy r.success = false)
    (hlastRetryable : is_retryable_error (errKeyString r) = true) :
    call cfg true attempts =
      ({ r with retries := some (cfg.max_retries - 1) },
       (List.range (cfg.max_retries - 1)).map fun k => _calculate_backoff cfg (k + 1)) := by
  obtain ⟨le, hskip⟩ := callLoop_skip cfg attempts (cfg.max_retries - 1) cfg.max_retries 1 none
    (by omega) (by omega) (fun i hi1 hi2 => hfail i hi1 (by omega))
  have h1n : 1 + (cfg.max_retries - 1) = cfg.max_retries := by omega
  rw [h1n] at hskip
  have hrem : cfg.max_retries - (cfg.max_retries - 1) = 0 + 1 := by omega
  rw [hrem] at hskip
  have hstep : callLoop cfg attempts (0 + 1) cfg.max_retries le =
      ({ r with retries := some (cfg.max_retries - 1) }, []) := by
    simp [callLoop, hlast, hlastFail, hlastRetryable]
  rw [hstep] at hskip
  have hmap : ((List.range (cfg.max_retries - 1)).map
        fun k => _calculate_backoff cfg (1 + k)) =
      (List.range (cfg.max_retries - 1)).map fun k => _calculate_backoff cfg (k + 1) := by
    apply List.map_congr_left
    intro k _
    congr 1
    omega
  rw [show call cfg true attempts = callLoop cfg attempts cfg.max_retries 1 none from rfl,
    hskip, hmap]
  simp

/-- Witness for C3 (amended) at the default configuration with the timeout
failure on every attempt. -/
theorem call_exhaust_c3_amended_witness :
    (1 ≤ defaultRetryCfg.max_retries ∧
      (∀ i, 1 ≤ i → i < defaultRetryCfg.max_retries →
        retryableFailure ((fun _ => .ok timeoutFail) i)) ∧
      (fun _ => AttemptOutcome.ok timeoutFail) defaultRetryCfg.max_retries = .ok timeoutFail ∧
      truthy timeoutFail.success = false ∧
      is_retryable_error (errKeyString timeoutFail) = true) ∧
    call defaultRetryCfg true (fun _ => .ok timeoutFail) =
      ({ timeoutFail with retries := some (defaultRetryCfg.max_retries - 1) },
       (List.range (defaultRetryCfg.max_retries - 1)).map
         fun k => _calculate_backoff defaultRetryCfg (k + 1)) :=
  ⟨⟨by decide, fun i _ _ => ⟨rfl, rfl⟩, rfl, rfl, rfl⟩,
   call_exhaust_c3_amended defaultRetryCfg (fun _ => .ok timeoutFail) timeoutFail
     (by decide) (fun i _ _ => ⟨rfl, rfl⟩) rfl rfl rfl⟩

end ClauQBot
